import Mathlib

/-!
Verification of the ffmpeg-mcp tool server (src/ffmpeg_mcp.py).

This file gives a shallow embedding of the dispatch / batch-processing core:
Python values appearing in tool arguments, the relevant parts of the `os.path`
and `subprocess` library surface (modelled on CPython / POSIX semantics), the
static methods of the FFmpegProcessor and FileManager classes, and the
handle_call_tool dispatcher.  External effects (the filesystem and the spawned
ffmpeg/ffprobe processes) are passed in explicitly: the filesystem is a value
of type FS, and every subprocess invocation is both (a) answered by an
abstract executor and (b) recorded in a trace, so that theorems can state
that the external process is or is not invoked.
-/

namespace FfmpegMcp

/-- Python values that can appear in a tool-call argument map (the JSON-ish
universe the server actually touches: strings, integers, and None). -/
inductive PyObj where
  | pyNone : PyObj
  | pyStr (s : String) : PyObj
  | pyInt (n : Int) : PyObj
  deriving Repr, DecidableEq

/-- Result of Python str() on the values of our universe
(str(None) is "None", str on ints is the decimal rendering). -/
def PyObj.str : PyObj → String
  | .pyNone => "None"
  | .pyStr s => s
  | .pyInt n => toString n

/-- Name of the Python type of a value, as used in TypeError messages. -/
def PyObj.typeName : PyObj → String
  | .pyNone => "NoneType"
  | .pyStr _ => "str"
  | .pyInt _ => "int"

/-- A raised Python exception, carrying its str() message. -/
structure PyErr where
  msg : String
  deriving Repr, DecidableEq

/-- An argument map, as received by handle_call_tool (a Python dict with
string keys; first binding wins, as dict keys are unique). -/
abbrev Arguments := List (String × PyObj)

/-- Python dict.get(k): the stored value, or None when the key is absent. -/
def dictGet (args : Arguments) (k : String) : PyObj :=
  match args.find? (fun p => p.1 == k) with
  | some p => p.2
  | none => .pyNone

/-- Python dict.get(k, d): the stored value (even a stored None), or the
default d only when the key is absent. -/
def dictGetD (args : Arguments) (k : String) (d : PyObj) : PyObj :=
  match args.find? (fun p => p.1 == k) with
  | some p => p.2
  | none => d

/-- The local filesystem visible to the server: a set of plain-file paths and
a set of directories with the names of the entries directly inside them
(entry names are bare file names, without a path separator). -/
structure FS where
  plainFiles : List String
  dirs : List (String × List String)

/-- Truth of os.path.exists on a string path: the path is a plain file or a
directory of the filesystem. -/
def FS.existsPath (fs : FS) (p : String) : Bool :=
  fs.plainFiles.contains p || fs.dirs.any (fun d => d.1 == p)

/-- Truth of Path(p).is_dir(). -/
def FS.isDir (fs : FS) (p : String) : Bool :=
  fs.dirs.any (fun d => d.1 == p)

/-- Names of the entries directly inside a directory (empty for non-dirs). -/
def FS.listDir (fs : FS) (p : String) : List String :=
  match fs.dirs.find? (fun d => d.1 == p) with
  | some d => d.2
  | none => []

/-- Message of the TypeError that CPython's os.stat raises when handed None
(this is what os.path.exists(None) raises, since genericpath.exists only
swallows OSError and ValueError). -/
def statTypeErrMsg : String :=
  "stat: path should be string, bytes, os.PathLike or integer, not NoneType"

/-- Message of the TypeError raised by os.fspath on a non-path object. -/
def fspathErrMsg (tyName : String) : String :=
  "expected str, bytes or os.PathLike object, not " ++ tyName

/-- Models os.path.exists applied to a raw argument value.  On a string it
consults the filesystem; on an int CPython treats the value as a file
descriptor (we model a process whose only open descriptors are the three
standard ones); on None the underlying os.stat raises TypeError, which
genericpath.exists does not catch. -/
def os_path_exists (fs : FS) : PyObj → Except PyErr Bool
  | .pyStr s => .ok (fs.existsPath s)
  | .pyInt n => .ok (decide (0 ≤ n ∧ n < 3))
  | .pyNone => .error ⟨statTypeErrMsg⟩

/-- Characters of a string with every trailing slash removed
(Python str.rstrip with a slash argument). -/
def rstripSlashes (cs : List Char) : List Char :=
  (cs.reverse.dropWhile (fun c => c == '/')).reverse

/-- Longest prefix of the characters up to and including the last slash
(empty when there is no slash). -/
def headUptoLastSlash (cs : List Char) : List Char :=
  (cs.reverse.dropWhile (fun c => !(c == '/'))).reverse

/-- Models posixpath.dirname: take the prefix up to and including the last
slash; if that prefix is non-empty and not made only of slashes, strip its
trailing slashes. -/
def os_path_dirname (p : String) : String :=
  let head := headUptoLastSlash p.data
  if head.isEmpty then ""
  else if head.all (fun c => c == '/') then String.mk head
  else String.mk (rstripSlashes head)

/-- Models os.path.dirname applied to a raw argument value: os.fspath raises
TypeError on None and on ints. -/
def os_path_dirname_obj : PyObj → Except PyErr String
  | .pyStr s => .ok (os_path_dirname s)
  | v => .error ⟨fspathErrMsg v.typeName⟩

/-- Models os.makedirs(name, exist_ok=True) on a writable filesystem: it
succeeds for every non-empty path, and raises FileNotFoundError for the
empty path (the underlying mkdir of an empty name fails, and exist_ok does
not apply because isdir of the empty path is false). -/
def os_makedirs (name : String) : Except PyErr Unit :=
  if name = "" then .error ⟨"[Errno 2] No such file or directory: " ++ "\x27\x27"⟩
  else .ok ()

/-- Truth of Python str.endswith, computed on the character lists. -/
def pyEndsWith (s t : String) : Bool := t.data.isSuffixOf s.data

/-- Truth of Python str.startswith, computed on the character lists. -/
def pyStartsWith (s t : String) : Bool := t.data.isPrefixOf s.data

/-- Result of Python str.upper on ASCII, computed on the character lists. -/
def pyToUpper (s : String) : String := String.mk (s.data.map Char.toUpper)

/-- Models posixpath.join of a directory string and one further component. -/
def os_path_join (a b : String) : String :=
  if pyStartsWith b "/" then b
  else if a = "" || pyEndsWith a "/" then a ++ b
  else a ++ "/" ++ b

/-- Models os.path.join applied to a raw first argument: os.fspath raises
TypeError on None and on ints. -/
def os_path_join_obj (a : PyObj) (b : String) : Except PyErr String :=
  match a with
  | .pyStr s => .ok (os_path_join s b)
  | v => .error ⟨fspathErrMsg v.typeName⟩

/-- Models pathlib's Path(p).name for the paths this program builds
(directory ++ slash ++ entry name, no trailing slash): the characters after
the last slash. -/
def pathName (p : String) : String :=
  String.mk ((p.data.reverse.takeWhile (fun c => !(c == '/'))).reverse)

/-- Outcome of a completed subprocess: whether the return code was zero,
and the captured stdout and stderr. -/
structure ExecResult where
  returncodeZero : Bool
  stdout : String
  stderr : String
  deriving Repr, DecidableEq

/-- The external world of processes: run answers an argv with either a
completed process outcome or a raised exception (spawn failure, timeout);
jsonParse models json.loads applied to a probe's stdout, with the parsed
document represented by its json.dumps(indent=2, ensure_ascii=False)
rendering — the only way the program consumes it. -/
structure Exec where
  run : List String → Except PyErr ExecResult
  jsonParse : String → Except PyErr String

/-- Commands handed to subprocess.run, in order. -/
abbrev Trace := List (List String)

/-- Models subprocess.run over a command list of raw Python values: all
elements must be path-like strings or the call raises TypeError before any
process is spawned; otherwise the call is recorded in the trace and the
executor answers it. -/
def toArgv : List PyObj → Except PyErr (List String)
  | [] => .ok []
  | .pyStr s :: rest => (toArgv rest).map (fun argv => s :: argv)
  | v :: _ => .error ⟨fspathErrMsg v.typeName⟩

/-- Models a subprocess.run call: returns the outcome (or the raised
exception) together with the trace of commands actually handed to the
process launcher. -/
def subprocess_run (ex : Exec) (cmd : List PyObj) : Except PyErr ExecResult × Trace :=
  match toArgv cmd with
  | .error e => (.error e, [])
  | .ok argv => (ex.run argv, [argv])

namespace FFmpegProcessor

/-- FFmpegProcessor.check_ffmpeg_available: runs ffmpeg -version and reports
whether it exited with code 0; any exception yields False. -/
def check_ffmpeg_available (ex : Exec) : Bool × Trace :=
  match subprocess_run ex [.pyStr "ffmpeg", .pyStr "-version"] with
  | (.ok r, t) => (r.returncodeZero, t)
  | (.error _, t) => (false, t)

/-- FFmpegProcessor.get_media_info: runs ffprobe, parses its stdout as JSON
on exit code 0, and raises (a wrapped exception) otherwise. -/
def get_media_info (ex : Exec) (file_path : PyObj) : Except PyErr String × Trace :=
  match subprocess_run ex
      [.pyStr "ffprobe", .pyStr "-v", .pyStr "quiet", .pyStr "-print_format",
       .pyStr "json", .pyStr "-show_format", .pyStr "-show_streams", file_path] with
  | (.error e, t) => (.error ⟨"Failed to get media info: " ++ e.msg⟩, t)
  | (.ok r, t) =>
    if r.returncodeZero then
      match ex.jsonParse r.stdout with
      | .ok doc => (.ok doc, t)
      | .error e => (.error ⟨"Failed to get media info: " ++ e.msg⟩, t)
    else (.error ⟨"Failed to get media info: FFprobe error: " ++ r.stderr⟩, t)

/-- FFmpegProcessor.compress_image: ensure the output's parent directory
exists, then run ffmpeg with the quality flag; any exception yields False. -/
def compress_image (ex : Exec) (input_path output_path quality : PyObj) :
    Bool × Trace :=
  match os_path_dirname_obj output_path with
  | .error _ => (false, [])
  | .ok d =>
    match os_makedirs d with
    | .error _ => (false, [])
    | .ok _ =>
      match subprocess_run ex
          [.pyStr "ffmpeg", .pyStr "-y", .pyStr "-i", input_path,
           .pyStr "-q:v", .pyStr quality.str, output_path] with
      | (.ok r, t) => (r.returncodeZero, t)
      | (.error _, t) => (false, t)

/-- FFmpegProcessor.convert_image_format (the format parameter is unused by
the command): ensure the output directory exists, then run ffmpeg. -/
def convert_image_format (ex : Exec) (input_path output_path : PyObj) :
    Bool × Trace :=
  match os_path_dirname_obj output_path with
  | .error _ => (false, [])
  | .ok d =>
    match os_makedirs d with
    | .error _ => (false, [])
    | .ok _ =>
      match subprocess_run ex
          [.pyStr "ffmpeg", .pyStr "-y", .pyStr "-i", input_path, output_path] with
      | (.ok r, t) => (r.returncodeZero, t)
      | (.error _, t) => (false, t)

/-- FFmpegProcessor.resize_image: scale filter built by an f-string from the
raw width and height values. -/
def resize_image (ex : Exec) (input_path output_path width height : PyObj) :
    Bool × Trace :=
  match os_path_dirname_obj output_path with
  | .error _ => (false, [])
  | .ok d =>
    match os_makedirs d with
    | .error _ => (false, [])
    | .ok _ =>
      match subprocess_run ex
          [.pyStr "ffmpeg", .pyStr "-y", .pyStr "-i", input_path,
           .pyStr "-vf", .pyStr ("scale=" ++ width.str ++ ":" ++ height.str),
           output_path] with
      | (.ok r, t) => (r.returncodeZero, t)
      | (.error _, t) => (false, t)

/-- FFmpegProcessor.compress_video: libx264 with crf (stringified) and the
preset value passed through raw, audio re-encoded to aac 128k. -/
def compress_video (ex : Exec) (input_path output_path crf preset : PyObj) :
    Bool × Trace :=
  match os_path_dirname_obj output_path with
  | .error _ => (false, [])
  | .ok d =>
    match os_makedirs d with
    | .error _ => (false, [])
    | .ok _ =>
      match subprocess_run ex
          [.pyStr "ffmpeg", .pyStr "-y", .pyStr "-i", input_path,
           .pyStr "-c:v", .pyStr "libx264", .pyStr "-crf", .pyStr crf.str,
           .pyStr "-preset", preset,
           .pyStr "-c:a", .pyStr "aac", .pyStr "-b:a", .pyStr "128k",
           output_path] with
      | (.ok r, t) => (r.returncodeZero, t)
      | (.error _, t) => (false, t)

/-- FFmpegProcessor.convert_video_format (the format parameter is unused by
the command). -/
def convert_video_format (ex : Exec) (input_path output_path : PyObj) :
    Bool × Trace :=
  match os_path_dirname_obj output_path with
  | .error _ => (false, [])
  | .ok d =>
    match os_makedirs d with
    | .error _ => (false, [])
    | .ok _ =>
      match subprocess_run ex
          [.pyStr "ffmpeg", .pyStr "-y", .pyStr "-i", input_path, output_path] with
      | (.ok r, t) => (r.returncodeZero, t)
      | (.error _, t) => (false, t)

/-- FFmpegProcessor.resize_video: scale filter from the raw width/height,
audio stream copied. -/
def resize_video (ex : Exec) (input_path output_path width height : PyObj) :
    Bool × Trace :=
  match os_path_dirname_obj output_path with
  | .error _ => (false, [])
  | .ok d =>
    match os_makedirs d with
    | .error _ => (false, [])
    | .ok _ =>
      match subprocess_run ex
          [.pyStr "ffmpeg", .pyStr "-y", .pyStr "-i", input_path,
           .pyStr "-vf", .pyStr ("scale=" ++ width.str ++ ":" ++ height.str),
           .pyStr "-c:a", .pyStr "copy", output_path] with
      | (.ok r, t) => (r.returncodeZero, t)
      | (.error _, t) => (false, t)

end FFmpegProcessor

namespace FileManager

/-- Truth of a name matching the glob pattern star-dot-ext (fnmatch anchors
the pattern, and the star matches any characters including a leading dot, so
the pattern holds exactly of names ending in dot-ext). -/
def globMatch (ext : String) (name : String) : Bool :=
  pyEndsWith name ("." ++ ext)

/-- FileManager.get_files_by_extension: when the directory exists and is a
directory, for each extension in order collect the entries matching the
lowercase pattern and then the entries matching the uppercased pattern,
returning full paths (directory/=name, as pathlib renders them for a
normalized directory string). -/
def get_files_by_extension (fs : FS) (directory : String) (extensions : List String) :
    List String :=
  if fs.existsPath directory && fs.isDir directory then
    (extensions.flatMap (fun ext =>
      (fs.listDir directory).filter (globMatch ext) ++
      (fs.listDir directory).filter (globMatch (pyToUpper ext)))).map
      (fun n => directory ++ "/" ++ n)
  else []

/-- Models Path(directory) applied to a raw argument before globbing:
pathlib raises TypeError for None and for ints. -/
def get_files_by_extension_obj (fs : FS) (directory : PyObj) (extensions : List String) :
    Except PyErr (List String) :=
  match directory with
  | .pyStr d => .ok (get_files_by_extension fs d extensions)
  | v => .error ⟨"argument should be a str or an os.PathLike object, not " ++ v.typeName⟩

/-- The image extension list of FileManager.batch_process_files. -/
def image_extensions : List String :=
  ["jpg", "jpeg", "png", "bmp", "gif", "tiff", "webp"]

/-- The video extension list of FileManager.batch_process_files. -/
def video_extensions : List String :=
  ["mp4", "avi", "mkv", "mov", "wmv", "flv", "webm", "m4v"]

/-- The combined extension list batch_process_files globs with (it always
uses the union of the two sets, whichever operation it is running). -/
def all_extensions : List String := image_extensions ++ video_extensions

/-- A single-file operation as handed to batch_process_files: from input and
output path to either a boolean outcome or a raised exception, together with
the subprocess commands it issued. -/
abbrev ProcFun := String → String → Except PyErr Bool × Trace

/-- Aggregate state of the batch loop: the success and failed result lists,
the (input, output) pairs on which the operation was actually invoked, and
the subprocess commands issued. -/
structure BatchState where
  success : List String
  failed : List String
  calls : List (String × String)
  spawned : Trace
  deriving Repr, DecidableEq

/-- The per-file loop of FileManager.batch_process_files, phrased as
structural recursion over the enumerated file list (the Python loop appends
to its lists in iteration order, which this cons-based recursion reproduces).
Each iteration runs under a try: a TypeError from os.path.join (non-string
output directory) or an exception from the operation is caught and recorded
as name-colon-message in the failed list; a False return is recorded as the
bare file name. -/
def batch_loop (output_dir : PyObj) (proc : ProcFun) : List String → BatchState
  | [] => ⟨[], [], [], []⟩
  | f :: rest =>
    let r := batch_loop output_dir proc rest
    match os_path_join_obj output_dir (pathName f) with
    | .error e =>
      ⟨r.success, (pathName f ++ ": " ++ e.msg) :: r.failed, r.calls, r.spawned⟩
    | .ok outp =>
      match proc f outp with
      | (.ok true, tr) =>
        ⟨pathName f :: r.success, r.failed, (f, outp) :: r.calls, tr ++ r.spawned⟩
      | (.ok false, tr) =>
        ⟨r.success, pathName f :: r.failed, (f, outp) :: r.calls, tr ++ r.spawned⟩
      | (.error e, tr) =>
        ⟨r.success, (pathName f ++ ": " ++ e.msg) :: r.failed, (f, outp) :: r.calls,
         tr ++ r.spawned⟩

/-- The aggregated result dict of batch_process_files. -/
structure BatchResults where
  success : List String
  failed : List String
  total : Nat
  deriving Repr, DecidableEq

/-- FileManager.batch_process_files: glob the input directory with the
combined extension list, set total to the number of matches, and run the
loop.  An exception from the enumeration itself (non-string input directory)
propagates to the caller; the per-file loop never raises.  Besides the
result dict the embedding returns the operation-invocation pairs and the
subprocess trace. -/
def batch_process_files (fs : FS) (input_dir output_dir : PyObj) (proc : ProcFun) :
    Except PyErr BatchResults × List (String × String) × Trace :=
  match get_files_by_extension_obj fs input_dir all_extensions with
  | .error e => (.error e, [], [])
  | .ok files =>
    let st := batch_loop output_dir proc files
    (.ok ⟨st.success, st.failed, files.length⟩, st.calls, st.spawned)

end FileManager

/-- Content items of a tool-call response.  The server's framework admits
text and non-text (image, embedded resource) items; this program only ever
constructs text items, which the claims about response shape quantify over. -/
inductive McpContent where
  | text (s : String) : McpContent
  | image (data : String) : McpContent
  | resource (uri : String) : McpContent
  deriving Repr, DecidableEq

/-- The compress_image branch of handle_call_tool. -/
def branch_compress_image (ex : Exec) (fs : FS) (args : Arguments) :
    Except PyErr (List McpContent) × Trace :=
  match os_path_exists fs (dictGet args "input_path") with
  | .error e => (.error e, [])
  | .ok b =>
    if !b then
      (.ok [.text ("错误：输入文件不存在: " ++ (dictGet args "input_path").str)], [])
    else
      let r := FFmpegProcessor.compress_image ex (dictGet args "input_path")
        (dictGet args "output_path") (dictGetD args "quality" (.pyInt 85))
      if r.1 then
        (.ok [.text ("图片压缩成功：" ++ (dictGet args "input_path").str ++ " -> " ++
          (dictGet args "output_path").str)], r.2)
      else
        (.ok [.text ("图片压缩失败：" ++ (dictGet args "input_path").str)], r.2)

/-- The batch summary message composed by both batch branches. -/
def batchMessage (header : String) (results : FileManager.BatchResults) : String :=
  let message := header ++ "\n总计: " ++ toString results.total ++ " 个文件\n成功: " ++
    toString results.success.length ++ " 个\n失败: " ++
    toString results.failed.length ++ " 个"
  if results.failed.isEmpty then message
  else message ++ "\n失败的文件: " ++ String.intercalate ", " results.failed

/-- The batch_compress_images branch of handle_call_tool. -/
def branch_batch_compress_images (ex : Exec) (fs : FS) (args : Arguments) :
    Except PyErr (List McpContent) × Trace :=
  match os_path_exists fs (dictGet args "input_dir") with
  | .error e => (.error e, [])
  | .ok b =>
    if !b then
      (.ok [.text ("错误：输入目录不存在: " ++ (dictGet args "input_dir").str)], [])
    else
      match FileManager.batch_process_files fs (dictGet args "input_dir")
          (dictGet args "output_dir")
          (fun i o =>
            let r := FFmpegProcessor.compress_image ex (.pyStr i) (.pyStr o)
              (dictGetD args "quality" (.pyInt 85))
            (.ok r.1, r.2)) with
      | (.error e, _, tr) => (.error e, tr)
      | (.ok results, _, tr) =>
        (.ok [.text (batchMessage "批量图片压缩完成！" results)], tr)

/-- The convert_image_format branch of handle_call_tool. -/
def branch_convert_image_format (ex : Exec) (fs : FS) (args : Arguments) :
    Except PyErr (List McpContent) × Trace :=
  match os_path_exists fs (dictGet args "input_path") with
  | .error e => (.error e, [])
  | .ok b =>
    if !b then
      (.ok [.text ("错误：输入文件不存在: " ++ (dictGet args "input_path").str)], [])
    else
      let r := FFmpegProcessor.convert_image_format ex (dictGet args "input_path")
        (dictGet args "output_path")
      if r.1 then
        (.ok [.text ("图片格式转换成功：" ++ (dictGet args "input_path").str ++ " -> " ++
          (dictGet args "output_path").str)], r.2)
      else
        (.ok [.text ("图片格式转换失败：" ++ (dictGet args "input_path").str)], r.2)

/-- The resize_image branch of handle_call_tool. -/
def branch_resize_image (ex : Exec) (fs : FS) (args : Arguments) :
    Except PyErr (List McpContent) × Trace :=
  match os_path_exists fs (dictGet args "input_path") with
  | .error e => (.error e, [])
  | .ok b =>
    if !b then
      (.ok [.text ("错误：输入文件不存在: " ++ (dictGet args "input_path").str)], [])
    else
      let r := FFmpegProcessor.resize_image ex (dictGet args "input_path")
        (dictGet args "output_path") (dictGet args "width") (dictGet args "height")
      if r.1 then
        (.ok [.text ("图片尺寸调整成功：" ++ (dictGet args "input_path").str ++ " -> " ++
          (dictGet args "output_path").str ++ " (" ++ (dictGet args "width").str ++
          "x" ++ (dictGet args "height").str ++ ")")], r.2)
      else
        (.ok [.text ("图片尺寸调整失败：" ++ (dictGet args "input_path").str)], r.2)

/-- The compress_video branch of handle_call_tool. -/
def branch_compress_video (ex : Exec) (fs : FS) (args : Arguments) :
    Except PyErr (List McpContent) × Trace :=
  match os_path_exists fs (dictGet args "input_path") with
  | .error e => (.error e, [])
  | .ok b =>
    if !b then
      (.ok [.text ("错误：输入文件不存在: " ++ (dictGet args "input_path").str)], [])
    else
      let r := FFmpegProcessor.compress_video ex (dictGet args "input_path")
        (dictGet args "output_path") (dictGetD args "crf" (.pyInt 23))
        (dictGetD args "preset" (.pyStr "medium"))
      if r.1 then
        (.ok [.text ("视频压缩成功：" ++ (dictGet args "input_path").str ++ " -> " ++
          (dictGet args "output_path").str)], r.2)
      else
        (.ok [.text ("视频压缩失败：" ++ (dictGet args "input_path").str)], r.2)

/-- The batch_compress_videos branch of handle_call_tool. -/
def branch_batch_compress_videos (ex : Exec) (fs : FS) (args : Arguments) :
    Except PyErr (List McpContent) × Trace :=
  match os_path_exists fs (dictGet args "input_dir") with
  | .error e => (.error e, [])
  | .ok b =>
    if !b then
      (.ok [.text ("错误：输入目录不存在: " ++ (dictGet args "input_dir").str)], [])
    else
      match FileManager.batch_process_files fs (dictGet args "input_dir")
          (dictGet args "output_dir")
          (fun i o =>
            let r := FFmpegProcessor.compress_video ex (.pyStr i) (.pyStr o)
              (dictGetD args "crf" (.pyInt 23)) (dictGetD args "preset" (.pyStr "medium"))
            (.ok r.1, r.2)) with
      | (.error e, _, tr) => (.error e, tr)
      | (.ok results, _, tr) =>
        (.ok [.text (batchMessage "批量视频压缩完成！" results)], tr)

/-- The convert_video_format branch of handle_call_tool. -/
def branch_convert_video_format (ex : Exec) (fs : FS) (args : Arguments) :
    Except PyErr (List McpContent) × Trace :=
  match os_path_exists fs (dictGet args "input_path") with
  | .error e => (.error e, [])
  | .ok b =>
    if !b then
      (.ok [.text ("错误：输入文件不存在: " ++ (dictGet args "input_path").str)], [])
    else
      let r := FFmpegProcessor.convert_video_format ex (dictGet args "input_path")
        (dictGet args "output_path")
      if r.1 then
        (.ok [.text ("视频格式转换成功：" ++ (dictGet args "input_path").str ++ " -> " ++
          (dictGet args "output_path").str)], r.2)
      else
        (.ok [.text ("视频格式转换失败：" ++ (dictGet args "input_path").str)], r.2)

/-- The resize_video branch of handle_call_tool. -/
def branch_resize_video (ex : Exec) (fs : FS) (args : Arguments) :
    Except PyErr (List McpContent) × Trace :=
  match os_path_exists fs (dictGet args "input_path") with
  | .error e => (.error e, [])
  | .ok b =>
    if !b then
      (.ok [.text ("错误：输入文件不存在: " ++ (dictGet args "input_path").str)], [])
    else
      let r := FFmpegProcessor.resize_video ex (dictGet args "input_path")
        (dictGet args "output_path") (dictGet args "width") (dictGet args "height")
      if r.1 then
        (.ok [.text ("视频尺寸调整成功：" ++ (dictGet args "input_path").str ++ " -> " ++
          (dictGet args "output_path").str ++ " (" ++ (dictGet args "width").str ++
          "x" ++ (dictGet args "height").str ++ ")")], r.2)
      else
        (.ok [.text ("视频尺寸调整失败：" ++ (dictGet args "input_path").str)], r.2)

/-- The get_media_info branch of handle_call_tool (its inner try catches the
probe's exception and reports it as a text message). -/
def branch_get_media_info (ex : Exec) (fs : FS) (args : Arguments) :
    Except PyErr (List McpContent) × Trace :=
  match os_path_exists fs (dictGet args "file_path") with
  | .error e => (.error e, [])
  | .ok b =>
    if !b then
      (.ok [.text ("错误：文件不存在: " ++ (dictGet args "file_path").str)], [])
    else
      match FFmpegProcessor.get_media_info ex (dictGet args "file_path") with
      | (.ok doc, tr) => (.ok [.text doc], tr)
      | (.error e, tr) => (.ok [.text ("获取媒体信息失败：" ++ e.msg)], tr)

/-- The check_ffmpeg_status branch of handle_call_tool. -/
def branch_check_ffmpeg_status (ex : Exec) : Except PyErr (List McpContent) × Trace :=
  let r := FFmpegProcessor.check_ffmpeg_available ex
  if r.1 then (.ok [.text "FFmpeg 已安装并可用"], r.2)
  else (.ok [.text "FFmpeg 未安装或不可用，请先安装FFmpeg"], r.2)

/-- Body of the try block of handle_call_tool: the Python elif chain on the
tool name.  An error value is a Python exception reaching the outer except
handler. -/
def call_tool_body (ex : Exec) (fs : FS) (name : String) (args : Arguments) :
    Except PyErr (List McpContent) × Trace :=
  if name = "compress_image" then branch_compress_image ex fs args
  else if name = "batch_compress_images" then branch_batch_compress_images ex fs args
  else if name = "convert_image_format" then branch_convert_image_format ex fs args
  else if name = "resize_image" then branch_resize_image ex fs args
  else if name = "compress_video" then branch_compress_video ex fs args
  else if name = "batch_compress_videos" then branch_batch_compress_videos ex fs args
  else if name = "convert_video_format" then branch_convert_video_format ex fs args
  else if name = "resize_video" then branch_resize_video ex fs args
  else if name = "get_media_info" then branch_get_media_info ex fs args
  else if name = "check_ffmpeg_status" then branch_check_ffmpeg_status ex
  else (.ok [.text ("未知的工具名称: " ++ name)], [])

/-- handle_call_tool: normalize a missing argument dict to the empty dict,
run the body, and convert any exception the body raises into the generic
execution-error text result. -/
def handle_call_tool (ex : Exec) (fs : FS) (name : String)
    (arguments : Option Arguments) : List McpContent × Trace :=
  match call_tool_body ex fs name (arguments.getD []) with
  | (.ok r, tr) => (r, tr)
  | (.error e, tr) => ([.text ("工具执行出错: " ++ e.msg)], tr)

/-! ### Concrete fixtures used by witnesses and counterexamples -/

/-- An executor whose every process exits with code 0. -/
def exOk : Exec := ⟨fun _ => .ok ⟨true, "", ""⟩, fun s => .ok s⟩

/-- An executor whose every process exits with a non-zero code. -/
def exFail : Exec := ⟨fun _ => .ok ⟨false, "", ""⟩, fun s => .ok s⟩

/-! ### Helper lemmas -/

/-- Left cancellation for string concatenation. -/
lemma str_append_left_cancel {a b c : String} (h : a ++ b = a ++ c) : b = c := by
  have h2 : a.data ++ b.data = a.data ++ c.data := by
    have h3 := congrArg String.data h
    simpa [String.data_append] using h3
  exact String.ext (List.append_cancel_left h2)

/-- Strings containing no slash have an empty dirname, as in posixpath. -/
lemma os_path_dirname_eq_empty {p : String} (h : ∀ c ∈ p.data, c ≠ '/') :
    os_path_dirname p = "" := by
  have hd : p.data.reverse.dropWhile (fun c => !(c == '/')) = [] := by
    rw [List.dropWhile_eq_nil_iff]
    intro c hc
    have hcp := h c (List.mem_reverse.mp hc)
    simp [hcp]
  simp only [os_path_dirname, headUptoLastSlash]
  rw [hd]
  rfl

/-- Creating the parent directory of a slash-free output path raises. -/
lemma os_makedirs_dirname_err {p : String} (h : ∀ c ∈ p.data, c ≠ '/') :
    os_makedirs (os_path_dirname p) =
      Except.error ⟨"[Errno 2] No such file or directory: " ++ "\x27\x27"⟩ := by
  rw [os_path_dirname_eq_empty h]
  rfl

/-- Enumerating with a concatenated extension list concatenates the
enumerations. -/
lemma get_files_by_extension_append (fs : FS) (d : String) (e1 e2 : List String) :
    FileManager.get_files_by_extension fs d (e1 ++ e2) =
      FileManager.get_files_by_extension fs d e1 ++
      FileManager.get_files_by_extension fs d e2 := by
  unfold FileManager.get_files_by_extension
  split
  · rw [List.flatMap_append, List.map_append]
  · rfl

/-- The batch loop records exactly one entry per enumerated file. -/
lemma batch_loop_length (od : PyObj) (proc : FileManager.ProcFun) (files : List String) :
    (FileManager.batch_loop od proc files).success.length +
      (FileManager.batch_loop od proc files).failed.length = files.length := by
  induction files with
  | nil => rfl
  | cons f rest ih =>
    simp only [FileManager.batch_loop]
    split
    · simpa using by omega
    · split
      · simpa using by omega
      · simpa using by omega
      · simpa using by omega

/-- With a string output directory, the batch loop invokes the operation on
every enumerated file, in order, with the joined destination path —
regardless of the outcomes of earlier files. -/
lemma batch_loop_calls (o : String) (proc : FileManager.ProcFun) (files : List String) :
    (FileManager.batch_loop (.pyStr o) proc files).calls =
      files.map (fun f => (f, os_path_join o (pathName f))) := by
  induction files with
  | nil => rfl
  | cons f rest ih =>
    simp only [FileManager.batch_loop, os_path_join_obj]
    split
    · simpa using ih
    · simpa using ih
    · simpa using ih

/-- The entry the batch loop records in the failed list for one file, if
any: nothing on a True return, the bare file name on a False return, and
name-colon-message on a raised exception. -/
def batchFailedEntry (o : String) (proc : FileManager.ProcFun) (f : String) :
    Option String :=
  match proc f (os_path_join o (pathName f)) with
  | (.ok true, _) => none
  | (.ok false, _) => some (pathName f)
  | (.error e, _) => some (pathName f ++ ": " ++ e.msg)

/-- With a string output directory, the failed list of the batch loop is
exactly the per-file failed entries, in enumeration order. -/
lemma batch_loop_failed (o : String) (proc : FileManager.ProcFun) (files : List String) :
    (FileManager.batch_loop (.pyStr o) proc files).failed =
      files.filterMap (batchFailedEntry o proc) := by
  induction files with
  | nil => rfl
  | cons f rest ih =>
    simp only [FileManager.batch_loop, os_path_join_obj, List.filterMap_cons,
      batchFailedEntry]
    split
    · simpa using ih
    · simpa using ih
    · simpa using ih

/-! ### Claim theorems about extension matching -/

/-- A directory fixture holding the four file names from the claim about
case sensitivity. -/
def fsCase : FS := ⟨[], [("d", ["a.Jpg", "A.JPG", "a.jpg", "a.jpgx"])]⟩

/-- C2 (counterexample): the mixed-case file a.Jpg is NOT enumerated by
get_files_by_extension with the image extension list, although the claim
says any mixed-case variant is included — the code only globs the
all-lowercase and the all-uppercase spelling of each extension. -/
theorem c2_counterexample :
    "d/a.Jpg" ∉ FileManager.get_files_by_extension fsCase "d"
      FileManager.image_extensions := by
  decide

/-- C2 (amended): for an existing directory, a file is enumerated if and
only if it is an entry of the directory and its name ends with a dot
followed by either exactly the lowercase or exactly the all-uppercase
spelling of one of the extensions; mixed-case variants are excluded. -/
theorem c2_extension_match_exact (fs : FS) (d name : String) (exts : List String)
    (hd : (fs.existsPath d && fs.isDir d) = true) :
    ((d ++ "/" ++ name) ∈ FileManager.get_files_by_extension fs d exts) ↔
      (name ∈ fs.listDir d ∧ ∃ ext ∈ exts,
        (FileManager.globMatch ext name ||
         FileManager.globMatch (pyToUpper ext) name) = true) := by
  unfold FileManager.get_files_by_extension
  rw [if_pos hd]
  constructor
  · intro hx
    obtain ⟨n, hn, he⟩ := List.mem_map.mp hx
    have hnn : n = name := str_append_left_cancel he
    subst hnn
    obtain ⟨ext, hext, hmem⟩ := List.mem_flatMap.mp hn
    rcases List.mem_append.mp hmem with hmem1 | hmem1
    · have h1 := List.mem_filter.mp hmem1
      exact ⟨h1.1, ext, hext, by simp [h1.2]⟩
    · have h1 := List.mem_filter.mp hmem1
      exact ⟨h1.1, ext, hext, by simp [h1.2]⟩
  · rintro ⟨hmem, ext, hext, hm⟩
    apply List.mem_map.mpr
    refine ⟨name, ?_, rfl⟩
    apply List.mem_flatMap.mpr
    refine ⟨ext, hext, ?_⟩
    simp only [Bool.or_eq_true] at hm
    rcases hm with h | h
    · exact List.mem_append.mpr (Or.inl (List.mem_filter.mpr ⟨hmem, h⟩))
    · exact List.mem_append.mpr (Or.inr (List.mem_filter.mpr ⟨hmem, h⟩))

/-- C2 (witness): on the fixture directory, the amended characterization
instantiated at the all-uppercase file A.JPG shows it is enumerated. -/
theorem c2_witness :
    "d/A.JPG" ∈ FileManager.get_files_by_extension fsCase "d"
      FileManager.image_extensions :=
  (c2_extension_match_exact fsCase "d" "A.JPG" FileManager.image_extensions
    (by decide)).mpr (by decide)

/-! ### Claim theorems about the batch runner -/

/-- C3 (counterexample): a directory holding only the video file v.mp4, run
through the batch_compress_images tool, yields total = 1 — the video is
enumerated, counted, and ffmpeg is invoked on it by the image batch — where
the claim requires a file of the other media type not to be counted
(total = 0) in an image batch. -/
theorem c3_counterexample :
    handle_call_tool exOk ⟨[], [("d", ["v.mp4"])]⟩ "batch_compress_images"
      (some [("input_dir", .pyStr "d"), ("output_dir", .pyStr "o")]) =
    ([.text "批量图片压缩完成！\n总计: 1 个文件\n成功: 1 个\n失败: 0 个"],
     [["ffmpeg", "-y", "-i", "d/v.mp4", "-q:v", "85", "o/v.mp4"]]) := by
  decide

/-- C3 (amended): batch_process_files enumerates with the union of the image
and video extension lists whichever operation it runs, so its total is the
number of image-extension matches plus the number of video-extension matches
in the source directory; files of the other media type are counted. -/
theorem c3_batch_counts_both_media_types (fs : FS) (d o : String)
    (proc : FileManager.ProcFun) :
    ∃ r, (FileManager.batch_process_files fs (.pyStr d) (.pyStr o) proc).1 =
        Except.ok r ∧
      r.total =
        (FileManager.get_files_by_extension fs d FileManager.image_extensions).length +
        (FileManager.get_files_by_extension fs d FileManager.video_extensions).length := by
  refine ⟨_, rfl, ?_⟩
  simp only [FileManager.batch_process_files, FileManager.get_files_by_extension_obj,
    FileManager.all_extensions, get_files_by_extension_append, List.length_append]

/-- C4 (counterexample): on a directory holding a.jpg, with every external
process exiting non-zero, the real compress_image operation returns False
and the batch records the bare file name a.jpg in the failed list — a string
with no colon, hence not of the shape file-name-colon-error the claim
requires for every failed entry. -/
theorem c4_counterexample :
    (FileManager.batch_process_files ⟨[], [("d", ["a.jpg"])]⟩ (.pyStr "d") (.pyStr "o")
        (fun i o =>
          let r := FFmpegProcessor.compress_image exFail (.pyStr i) (.pyStr o) (.pyInt 85)
          (.ok r.1, r.2))).1 =
      Except.ok ⟨[], ["a.jpg"], 1⟩ ∧ ("a.jpg" : String).data.contains ':' = false := by
  exact ⟨by rfl, by decide⟩

/-- C4 (amended): in the failed list, a file on which the operation raises an
exception is recorded as file name, colon-space, message — but a file on
which the operation merely returns False is recorded as the bare file name;
the failed list is exactly these per-file entries in enumeration order. -/
theorem c4_failed_entry_shapes (fs : FS) (d o : String) (proc : FileManager.ProcFun) :
    ∃ r, (FileManager.batch_process_files fs (.pyStr d) (.pyStr o) proc).1 =
        Except.ok r ∧
      r.failed = (FileManager.get_files_by_extension fs d
          FileManager.all_extensions).filterMap (batchFailedEntry o proc) := by
  refine ⟨_, rfl, ?_⟩
  simp only [FileManager.batch_process_files, FileManager.get_files_by_extension_obj]
  exact batch_loop_failed o proc _

/-- C5: a batch run with string directories returns (never raises) a result
whose total is the number of enumerated matching files and in which every
enumerated file contributes exactly one entry, so the lengths of the success
and failed lists sum to the total; on a directory with no matching files the
enumeration is empty, making the result total 0 with both lists empty. -/
theorem c5_batch_result_invariant (fs : FS) (d o : String)
    (proc : FileManager.ProcFun) :
    ∃ r, (FileManager.batch_process_files fs (.pyStr d) (.pyStr o) proc).1 =
        Except.ok r ∧
      r.total =
        (FileManager.get_files_by_extension fs d FileManager.all_extensions).length ∧
      r.success.length + r.failed.length = r.total := by
  refine ⟨_, rfl, rfl, ?_⟩
  exact batch_loop_length (.pyStr o) proc _

/-- C8: whatever the per-file outcomes — True, False, or a raised
exception — the batch loop invokes the single-file operation on every
enumerated file with its joined destination path, in enumeration order; a
failure on one file never prevents the calls on the files after it. -/
theorem c8_failures_never_abort_batch (fs : FS) (d o : String)
    (proc : FileManager.ProcFun) :
    (FileManager.batch_process_files fs (.pyStr d) (.pyStr o) proc).2.1 =
      (FileManager.get_files_by_extension fs d FileManager.all_extensions).map
        (fun f => (f, os_path_join o (pathName f))) := by
  simp only [FileManager.batch_process_files, FileManager.get_files_by_extension_obj]
  exact batch_loop_calls o proc _

/-- C10: for each of the six single-file transcoding operations, an output
path with no directory component (no slash) makes os.path.dirname empty, so
os.makedirs raises before the command is built: the operation returns False
and no subprocess is ever invoked. -/
theorem c10_bare_output_no_spawn (ex : Exec) (inp q w hgt crf preset : PyObj)
    (out : String) (h : ∀ c ∈ out.data, c ≠ '/') :
    FFmpegProcessor.compress_image ex inp (.pyStr out) q = (false, []) ∧
    FFmpegProcessor.convert_image_format ex inp (.pyStr out) = (false, []) ∧
    FFmpegProcessor.resize_image ex inp (.pyStr out) w hgt = (false, []) ∧
    FFmpegProcessor.compress_video ex inp (.pyStr out) crf preset = (false, []) ∧
    FFmpegProcessor.convert_video_format ex inp (.pyStr out) = (false, []) ∧
    FFmpegProcessor.resize_video ex inp (.pyStr out) w hgt = (false, []) := by
  have hm := os_makedirs_dirname_err h
  refine ⟨?_, ?_, ?_, ?_, ?_, ?_⟩ <;>
    simp [FFmpegProcessor.compress_image, FFmpegProcessor.convert_image_format,
      FFmpegProcessor.resize_image, FFmpegProcessor.compress_video,
      FFmpegProcessor.convert_video_format, FFmpegProcessor.resize_video,
      os_path_dirname_obj, hm]

/-- C10 (witness): the six operations at a concrete executor and concrete
arguments, with the bare output file name out.jpg. -/
theorem c10_witness :
    FFmpegProcessor.compress_image exOk (.pyStr "/a.jpg") (.pyStr "out.jpg")
        (.pyInt 85) = (false, []) ∧
    FFmpegProcessor.convert_image_format exOk (.pyStr "/a.jpg") (.pyStr "out.jpg") =
        (false, []) ∧
    FFmpegProcessor.resize_image exOk (.pyStr "/a.jpg") (.pyStr "out.jpg")
        (.pyInt 100) (.pyInt 50) = (false, []) ∧
    FFmpegProcessor.compress_video exOk (.pyStr "/a.jpg") (.pyStr "out.jpg")
        (.pyInt 23) (.pyStr "medium") = (false, []) ∧
    FFmpegProcessor.convert_video_format exOk (.pyStr "/a.jpg") (.pyStr "out.jpg") =
        (false, []) ∧
    FFmpegProcessor.resize_video exOk (.pyStr "/a.jpg") (.pyStr "out.jpg")
        (.pyInt 100) (.pyInt 50) = (false, []) :=
  c10_bare_output_no_spawn exOk (.pyStr "/a.jpg") (.pyInt 85) (.pyInt 100)
    (.pyInt 50) (.pyInt 23) (.pyStr "medium") "out.jpg" (by decide)

/-! ### Dispatcher lemmas -/

/-- Reduction of the tool-name dispatch at each concrete tool name. -/
lemma call_tool_body_at_compress_image (ex : Exec) (fs : FS) (args : Arguments) :
    call_tool_body ex fs "compress_image" args = branch_compress_image ex fs args := rfl

/-- Reduction of the tool-name dispatch at batch_compress_images. -/
lemma call_tool_body_at_batch_images (ex : Exec) (fs : FS) (args : Arguments) :
    call_tool_body ex fs "batch_compress_images" args =
      branch_batch_compress_images ex fs args := rfl

/-- Reduction of the tool-name dispatch at convert_image_format. -/
lemma call_tool_body_at_convert_image (ex : Exec) (fs : FS) (args : Arguments) :
    call_tool_body ex fs "convert_image_format" args =
      branch_convert_image_format ex fs args := rfl

/-- Reduction of the tool-name dispatch at resize_image. -/
lemma call_tool_body_at_resize_image (ex : Exec) (fs : FS) (args : Arguments) :
    call_tool_body ex fs "resize_image" args = branch_resize_image ex fs args := rfl

/-- Reduction of the tool-name dispatch at compress_video. -/
lemma call_tool_body_at_compress_video (ex : Exec) (fs : FS) (args : Arguments) :
    call_tool_body ex fs "compress_video" args = branch_compress_video ex fs args := rfl

/-- Reduction of the tool-name dispatch at batch_compress_videos. -/
lemma call_tool_body_at_batch_videos (ex : Exec) (fs : FS) (args : Arguments) :
    call_tool_body ex fs "batch_compress_videos" args =
      branch_batch_compress_videos ex fs args := rfl

/-- Reduction of the tool-name dispatch at convert_video_format. -/
lemma call_tool_body_at_convert_video (ex : Exec) (fs : FS) (args : Arguments) :
    call_tool_body ex fs "convert_video_format" args =
      branch_convert_video_format ex fs args := rfl

/-- Reduction of the tool-name dispatch at resize_video. -/
lemma call_tool_body_at_resize_video (ex : Exec) (fs : FS) (args : Arguments) :
    call_tool_body ex fs "resize_video" args = branch_resize_video ex fs args := rfl

/-- Reduction of the tool-name dispatch at get_media_info. -/
lemma call_tool_body_at_media_info (ex : Exec) (fs : FS) (args : Arguments) :
    call_tool_body ex fs "get_media_info" args = branch_get_media_info ex fs args := rfl

/-- Reduction of handle_call_tool when the body returns normally. -/
lemma handle_call_tool_ok {ex : Exec} {fs : FS} {name : String}
    {arguments : Option Arguments} {r : List McpContent} {tr : Trace}
    (h : call_tool_body ex fs name (arguments.getD []) = (Except.ok r, tr)) :
    handle_call_tool ex fs name arguments = (r, tr) := by
  unfold handle_call_tool
  rw [h]

/-- Reduction of handle_call_tool when the body raises. -/
lemma handle_call_tool_err {ex : Exec} {fs : FS} {name : String}
    {arguments : Option Arguments} {e : PyErr} {tr : Trace}
    (h : call_tool_body ex fs name (arguments.getD []) = (Except.error e, tr)) :
    handle_call_tool ex fs name arguments =
      ([.text ("工具执行出错: " ++ e.msg)], tr) := by
  unfold handle_call_tool
  rw [h]

/-- Shape of a dispatcher branch outcome: a normal return that is a single
text content item, or a raised exception. -/
def resultShape (p : Except PyErr (List McpContent) × Trace) : Prop :=
  (∃ s, p.1 = Except.ok [McpContent.text s]) ∨ (∃ e, p.1 = Except.error e)

/-- Every leaf of the compress_image branch is a single text item. -/
lemma shape_compress_image (ex : Exec) (fs : FS) (args : Arguments) :
    resultShape (branch_compress_image ex fs args) := by
  unfold resultShape branch_compress_image
  rcases h : os_path_exists fs (dictGet args "input_path") with e | b
  · exact Or.inr ⟨e, by simp [h]⟩
  · simp only [h]
    split
    · exact Or.inl ⟨_, rfl⟩
    · split
      · exact Or.inl ⟨_, rfl⟩
      · exact Or.inl ⟨_, rfl⟩

/-- Every leaf of the convert_image_format branch is a single text item. -/
lemma shape_convert_image (ex : Exec) (fs : FS) (args : Arguments) :
    resultShape (branch_convert_image_format ex fs args) := by
  unfold resultShape branch_convert_image_format
  rcases h : os_path_exists fs (dictGet args "input_path") with e | b
  · exact Or.inr ⟨e, by simp [h]⟩
  · simp only [h]
    split
    · exact Or.inl ⟨_, rfl⟩
    · split
      · exact Or.inl ⟨_, rfl⟩
      · exact Or.inl ⟨_, rfl⟩

/-- Every leaf of the resize_image branch is a single text item. -/
lemma shape_resize_image (ex : Exec) (fs : FS) (args : Arguments) :
    resultShape (branch_resize_image ex fs args) := by
  unfold resultShape branch_resize_image
  rcases h : os_path_exists fs (dictGet args "input_path") with e | b
  · exact Or.inr ⟨e, by simp [h]⟩
  · simp only [h]
    split
    · exact Or.inl ⟨_, rfl⟩
    · split
      · exact Or.inl ⟨_, rfl⟩
      · exact Or.inl ⟨_, rfl⟩

/-- Every leaf of the compress_video branch is a single text item. -/
lemma shape_compress_video (ex : Exec) (fs : FS) (args : Arguments) :
    resultShape (branch_compress_video ex fs args) := by
  unfold resultShape branch_compress_video
  rcases h : os_path_exists fs (dictGet args "input_path") with e | b
  · exact Or.inr ⟨e, by simp [h]⟩
  · simp only [h]
    split
    · exact Or.inl ⟨_, rfl⟩
    · split
      · exact Or.inl ⟨_, rfl⟩
      · exact Or.inl ⟨_, rfl⟩

/-- Every leaf of the convert_video_format branch is a single text item. -/
lemma shape_convert_video (ex : Exec) (fs : FS) (args : Arguments) :
    resultShape (branch_convert_video_format ex fs args) := by
  unfold resultShape branch_convert_video_format
  rcases h : os_path_exists fs (dictGet args "input_path") with e | b
  · exact Or.inr ⟨e, by simp [h]⟩
  · simp only [h]
    split
    · exact Or.inl ⟨_, rfl⟩
    · split
      · exact Or.inl ⟨_, rfl⟩
      · exact Or.inl ⟨_, rfl⟩

/-- Every leaf of the resize_video branch is a single text item. -/
lemma shape_resize_video (ex : Exec) (fs : FS) (args : Arguments) :
    resultShape (branch_resize_video ex fs args) := by
  unfold resultShape branch_resize_video
  rcases h : os_path_exists fs (dictGet args "input_path") with e | b
  · exact Or.inr ⟨e, by simp [h]⟩
  · simp only [h]
    split
    · exact Or.inl ⟨_, rfl⟩
    · split
      · exact Or.inl ⟨_, rfl⟩
      · exact Or.inl ⟨_, rfl⟩

/-- Every leaf of the batch_compress_images branch is a single text item or
a propagated exception. -/
lemma shape_batch_images (ex : Exec) (fs : FS) (args : Arguments) :
    resultShape (branch_batch_compress_images ex fs args) := by
  unfold resultShape branch_batch_compress_images
  rcases h : os_path_exists fs (dictGet args "input_dir") with e | b
  · exact Or.inr ⟨e, by simp [h]⟩
  · simp only [h]
    split
    · exact Or.inl ⟨_, rfl⟩
    · rcases hb : FileManager.batch_process_files fs (dictGet args "input_dir")
        (dictGet args "output_dir")
        (fun i o =>
          let r := FFmpegProcessor.compress_image ex (.pyStr i) (.pyStr o)
            (dictGetD args "quality" (.pyInt 85))
          (.ok r.1, r.2)) with ⟨res, calls, tr⟩
      rcases res with e | results
      · exact Or.inr ⟨e, by simp [hb]⟩
      · exact Or.inl ⟨batchMessage "批量图片压缩完成！" results, by simp [hb]⟩

/-- Every leaf of the batch_compress_videos branch is a single text item or
a propagated exception. -/
lemma shape_batch_videos (ex : Exec) (fs : FS) (args : Arguments) :
    resultShape (branch_batch_compress_videos ex fs args) := by
  unfold resultShape branch_batch_compress_videos
  rcases h : os_path_exists fs (dictGet args "input_dir") with e | b
  · exact Or.inr ⟨e, by simp [h]⟩
  · simp only [h]
    split
    · exact Or.inl ⟨_, rfl⟩
    · rcases hb : FileManager.batch_process_files fs (dictGet args "input_dir")
        (dictGet args "output_dir")
        (fun i o =>
          let r := FFmpegProcessor.compress_video ex (.pyStr i) (.pyStr o)
            (dictGetD args "crf" (.pyInt 23)) (dictGetD args "preset" (.pyStr "medium"))
          (.ok r.1, r.2)) with ⟨res, calls, tr⟩
      rcases res with e | results
      · exact Or.inr ⟨e, by simp [hb]⟩
      · exact Or.inl ⟨batchMessage "批量视频压缩完成！" results, by simp [hb]⟩

/-- Every leaf of the get_media_info branch is a single text item (its inner
try converts the probe's exception to text). -/
lemma shape_media_info (ex : Exec) (fs : FS) (args : Arguments) :
    resultShape (branch_get_media_info ex fs args) := by
  unfold resultShape branch_get_media_info
  rcases h : os_path_exists fs (dictGet args "file_path") with e | b
  · exact Or.inr ⟨e, by simp [h]⟩
  · simp only [h]
    split
    · exact Or.inl ⟨_, rfl⟩
    · rcases hg : FFmpegProcessor.get_media_info ex (dictGet args "file_path")
        with ⟨e | doc, tr⟩
      · refine Or.inl ⟨"获取媒体信息失败：" ++ e.msg, ?_⟩
        simp [hg]
      · refine Or.inl ⟨doc, ?_⟩
        simp [hg]

/-- Every leaf of the check_ffmpeg_status branch is a single text item. -/
lemma shape_check_status (ex : Exec) :
    resultShape (branch_check_ffmpeg_status ex) := by
  unfold resultShape branch_check_ffmpeg_status
  rcases h : FFmpegProcessor.check_ffmpeg_available ex with ⟨avail, tr⟩
  simp only [h]
  cases avail
  · exact Or.inl ⟨"FFmpeg 未安装或不可用，请先安装FFmpeg", rfl⟩
  · exact Or.inl ⟨"FFmpeg 已安装并可用", rfl⟩

/-- Every branch of the dispatch body returns a single text item or raises. -/
lemma call_tool_body_shape (ex : Exec) (fs : FS) (name : String) (args : Arguments) :
    resultShape (call_tool_body ex fs name args) := by
  unfold call_tool_body
  split
  · exact shape_compress_image ex fs args
  split
  · exact shape_batch_images ex fs args
  split
  · exact shape_convert_image ex fs args
  split
  · exact shape_resize_image ex fs args
  split
  · exact shape_compress_video ex fs args
  split
  · exact shape_batch_videos ex fs args
  split
  · exact shape_convert_video ex fs args
  split
  · exact shape_resize_video ex fs args
  split
  · exact shape_media_info ex fs args
  split
  · exact shape_check_status ex
  · exact Or.inl ⟨_, rfl⟩

/-! ### Claim theorems about the dispatcher -/

/-- C6: for every tool name and argument map, the dispatcher returns a
result value: either the body returns normally and handle_call_tool passes
its value through, or the body raises and handle_call_tool wraps the
exception into the generic execution-error text result — an exception never
escapes to the caller. -/
theorem c6_exceptions_wrapped (ex : Exec) (fs : FS) (name : String)
    (arguments : Option Arguments) :
    (∃ r tr, call_tool_body ex fs name (arguments.getD []) = (Except.ok r, tr) ∧
      handle_call_tool ex fs name arguments = (r, tr)) ∨
    (∃ e tr, call_tool_body ex fs name (arguments.getD []) = (Except.error e, tr) ∧
      handle_call_tool ex fs name arguments =
        ([.text ("工具执行出错: " ++ e.msg)], tr)) := by
  rcases h : call_tool_body ex fs name (arguments.getD []) with ⟨res, tr⟩
  rcases res with e | r
  · exact Or.inr ⟨e, tr, rfl, handle_call_tool_err h⟩
  · exact Or.inl ⟨r, tr, rfl, handle_call_tool_ok h⟩

/-- C9: every call to the dispatcher, for any tool name (known or unknown)
and any arguments, returns a list holding exactly one content item, and that
item is a text item. -/
theorem c9_single_text_item (ex : Exec) (fs : FS) (name : String)
    (arguments : Option Arguments) :
    ∃ s, (handle_call_tool ex fs name arguments).1 = [McpContent.text s] := by
  have hs := call_tool_body_shape ex fs name (arguments.getD [])
  unfold resultShape at hs
  rcases hb : call_tool_body ex fs name (arguments.getD []) with ⟨res, tr⟩
  rw [hb] at hs
  rcases hs with ⟨s, h1⟩ | ⟨e, h1⟩
  · simp only at h1
    subst h1
    exact ⟨s, by rw [handle_call_tool_ok hb]⟩
  · simp only at h1
    subst h1
    exact ⟨"工具执行出错: " ++ e.msg, by rw [handle_call_tool_err hb]⟩

/-- The operations of the registry that take a required input path, with the
argument key holding that path and the message prefix of the corresponding
not-found failure text. -/
def required_input_ops : List (String × String × String) :=
  [("compress_image", "input_path", "错误：输入文件不存在: "),
   ("batch_compress_images", "input_dir", "错误：输入目录不存在: "),
   ("convert_image_format", "input_path", "错误：输入文件不存在: "),
   ("resize_image", "input_path", "错误：输入文件不存在: "),
   ("compress_video", "input_path", "错误：输入文件不存在: "),
   ("batch_compress_videos", "input_dir", "错误：输入目录不存在: "),
   ("convert_video_format", "input_path", "错误：输入文件不存在: "),
   ("resize_video", "input_path", "错误：输入文件不存在: "),
   ("get_media_info", "file_path", "错误：文件不存在: ")]

/-- C7: for every operation taking a required input path, when the supplied
path does not exist on the filesystem the dispatcher returns the
input-not-found failure text naming the path, and no external process is
spawned (the trace is empty). -/
theorem c7_input_not_found_no_spawn (ex : Exec) (fs : FS) (args : Arguments)
    (op : String × String × String) (p : String) (hop : op ∈ required_input_ops)
    (hk : dictGet args op.2.1 = PyObj.pyStr p) (hex : fs.existsPath p = false) :
    handle_call_tool ex fs op.1 (some args) = ([.text (op.2.2 ++ p)], []) := by
  simp only [required_input_ops, List.mem_cons, List.not_mem_nil, or_false] at hop
  rcases hop with h | h | h | h | h | h | h | h | h <;> subst h <;>
    simp only at hk ⊢ <;>
    apply handle_call_tool_ok
  · rw [call_tool_body_at_compress_image]
    simp [branch_compress_image, hk, os_path_exists, hex, PyObj.str]
  · rw [call_tool_body_at_batch_images]
    simp [branch_batch_compress_images, hk, os_path_exists, hex, PyObj.str]
  · rw [call_tool_body_at_convert_image]
    simp [branch_convert_image_format, hk, os_path_exists, hex, PyObj.str]
  · rw [call_tool_body_at_resize_image]
    simp [branch_resize_image, hk, os_path_exists, hex, PyObj.str]
  · rw [call_tool_body_at_compress_video]
    simp [branch_compress_video, hk, os_path_exists, hex, PyObj.str]
  · rw [call_tool_body_at_batch_videos]
    simp [branch_batch_compress_videos, hk, os_path_exists, hex, PyObj.str]
  · rw [call_tool_body_at_convert_video]
    simp [branch_convert_video_format, hk, os_path_exists, hex, PyObj.str]
  · rw [call_tool_body_at_resize_video]
    simp [branch_resize_video, hk, os_path_exists, hex, PyObj.str]
  · rw [call_tool_body_at_media_info]
    simp [branch_get_media_info, hk, os_path_exists, hex, PyObj.str]

/-- C7 (witness): get_media_info on a missing path at a concrete filesystem
returns the not-found text with an empty trace. -/
theorem c7_witness :
    handle_call_tool exOk ⟨[], []⟩ "get_media_info"
      (some [("file_path", .pyStr "/nope")]) =
    ([.text ("错误：文件不存在: " ++ "/nope")], []) :=
  c7_input_not_found_no_spawn exOk ⟨[], []⟩ [("file_path", .pyStr "/nope")]
    ("get_media_info", "file_path", "错误：文件不存在: ") "/nope"
    (by decide) (by decide) (by decide)

/-- C1 (counterexample): resize_image invoked with input and output paths
but with the required width and height omitted does NOT yield a failure
naming the missing parameter, and the external process IS invoked (the
trace is non-empty: ffmpeg runs with the filter scale=None:None). -/
theorem c1_counterexample :
    (handle_call_tool exOk ⟨["/a.jpg"], []⟩ "resize_image"
      (some [("input_path", .pyStr "/a.jpg"), ("output_path", .pyStr "/t/o.jpg")])).2
      ≠ [] := by
  decide

/-- C1 (amended): for every operation taking a required input path, omitting
that parameter makes the dispatcher return the generic execution-error
failure wrapping the TypeError of the existence check — a message that does
not name the parameter — with no external process spawned.  (No failure ever
names a missing parameter; for omitted non-path parameters the process can
even be invoked, as the counterexample shows.) -/
theorem c1_missing_input_generic_error (ex : Exec) (fs : FS) (args : Arguments)
    (op : String × String × String) (hop : op ∈ required_input_ops)
    (hk : dictGet args op.2.1 = PyObj.pyNone) :
    handle_call_tool ex fs op.1 (some args) =
      ([.text ("工具执行出错: " ++ statTypeErrMsg)], []) := by
  simp only [required_input_ops, List.mem_cons, List.not_mem_nil, or_false] at hop
  rcases hop with h | h | h | h | h | h | h | h | h <;> subst h <;>
    simp only at hk ⊢ <;>
    apply handle_call_tool_err (e := ⟨statTypeErrMsg⟩)
  · rw [call_tool_body_at_compress_image]
    simp [branch_compress_image, hk, os_path_exists]
  · rw [call_tool_body_at_batch_images]
    simp [branch_batch_compress_images, hk, os_path_exists]
  · rw [call_tool_body_at_convert_image]
    simp [branch_convert_image_format, hk, os_path_exists]
  · rw [call_tool_body_at_resize_image]
    simp [branch_resize_image, hk, os_path_exists]
  · rw [call_tool_body_at_compress_video]
    simp [branch_compress_video, hk, os_path_exists]
  · rw [call_tool_body_at_batch_videos]
    simp [branch_batch_compress_videos, hk, os_path_exists]
  · rw [call_tool_body_at_convert_video]
    simp [branch_convert_video_format, hk, os_path_exists]
  · rw [call_tool_body_at_resize_video]
    simp [branch_resize_video, hk, os_path_exists]
  · rw [call_tool_body_at_media_info]
    simp [branch_get_media_info, hk, os_path_exists]

/-- C1 (witness): compress_image with an empty argument map returns the
generic execution-error text, with no external process spawned. -/
theorem c1_witness :
    handle_call_tool exOk ⟨["/a.jpg"], []⟩ "compress_image" (some []) =
      ([.text ("工具执行出错: " ++ statTypeErrMsg)], []) :=
  c1_missing_input_generic_error exOk ⟨["/a.jpg"], []⟩ []
    ("compress_image", "input_path", "错误：输入文件不存在: ")
    (by decide) (by decide)

end FfmpegMcp
